import Mathlib

/-!
Shallow embedding of the `AIVideoGenerator` pipeline (src/main.py) and
verification of its specified properties.

Python numeric conventions used throughout the embedding:
* Python `%` on integers with positive modulus returns a value in `[0, m)`;
  Lean's `Int.emod` (the `%` on `ℤ`) has the same behaviour, so `%` is used
  directly.
* Python `//` (floor division) is `Int.fdiv`.
* Python `int(x)` truncates toward zero; `int_trunc` below models it on `ℚ`.
* Float expressions such as `0.2` and `t / duration` are modelled exactly over
  `ℚ`.
External libraries (PIL, numpy, moviepy, pyttsx3) are opaque collaborators:
their calls are modelled either as function parameters or, where the claim
depends on their documented semantics (moviepy clip durations), as small
definitions marked as such in their doc comments.
-/

namespace AIVideoGen

/-- Python `int(x)` on a rational: truncation toward zero. -/
def int_trunc (q : ℚ) : ℤ :=
  if 0 ≤ q then ⌊q⌋ else -⌊-q⌋

theorem int_trunc_of_nonneg {q : ℚ} (h : 0 ≤ q) : int_trunc q = ⌊q⌋ :=
  if_pos h

theorem int_trunc_nonneg {q : ℚ} (h : 0 ≤ q) : 0 ≤ int_trunc q := by
  rw [int_trunc_of_nonneg h]
  exact Int.floor_nonneg.mpr h

theorem int_trunc_le {q : ℚ} (h : 0 ≤ q) : (int_trunc q : ℚ) ≤ q := by
  rw [int_trunc_of_nonneg h]
  exact Int.floor_le q

theorem int_trunc_mono {a b : ℚ} (ha : 0 ≤ a) (hab : a ≤ b) :
    int_trunc a ≤ int_trunc b := by
  rw [int_trunc_of_nonneg ha, int_trunc_of_nonneg (ha.trans hab)]
  exact Int.floor_le_floor hab

/-! ### Scene image synthesis (src/main.py lines 34-48) -/

/-- Base RGB colour derived from the prompt hash
(src/main.py lines 35-39).  The Python builtin `hash` is an opaque,
deterministic-within-a-process function of the prompt string; the embedding
takes its integer value as the argument, so that `base_color` is exactly the
arithmetic the source performs on it. -/
def base_color (h : ℤ) : ℤ × ℤ × ℤ :=
  (h % 200 + 50, (h * 2) % 200 + 50, (h * 3) % 200 + 50)

/-- The visual-effect dispatch of `generate_image_from_prompt`
(src/main.py lines 42-48).  The three PIL filters are opaque external
transforms, passed as parameters; any tag outside the three recognised
branches falls through with the image untouched. -/
def apply_visual_effect {α : Type} (blur gradient vignette : α → α)
    (visual_effect : String) (img : α) : α :=
  if visual_effect = "blur" then blur img
  else if visual_effect = "gradient" then gradient img
  else if visual_effect = "vignette" then vignette img
  else img

/-! ### Camera effects (src/main.py lines 123-154) -/

/-- `zoom_factor = 1 + (t / duration) * 0.2` from `zoom_in`
(src/main.py line 131). -/
def zoom_factor (duration t : ℚ) : ℚ :=
  1 + (t / duration) * 0.2

/-- The crop window computed by `zoom_in` (src/main.py lines 132-136). -/
structure CropWindow where
  top : ℤ
  left : ℤ
  new_h : ℤ
  new_w : ℤ
deriving DecidableEq

/-- The crop-window arithmetic of `zoom_in` (src/main.py lines 131-136):
`new_h, new_w = int(h / zoom_factor), int(w / zoom_factor)`,
`top = (h - new_h) // 2`, `left = (w - new_w) // 2`. -/
def zoom_crop (h w : ℕ) (duration t : ℚ) : CropWindow :=
  let f := zoom_factor duration t
  let new_h : ℤ := int_trunc ((h : ℚ) / f)
  let new_w : ℤ := int_trunc ((w : ℚ) / f)
  { top := Int.fdiv ((h : ℤ) - new_h) 2
    left := Int.fdiv ((w : ℤ) - new_w) 2
    new_h := new_h
    new_w := new_w }

/-- Width taken from the frame raster (`w = frame.shape[1]`), with a frame
modelled as its list of rows. -/
def frame_width {α : Type} (frame : List (List α)) : ℕ :=
  match frame with
  | [] => 0
  | row :: _ => row.length

/-- `shift = int((t / duration) * w * 0.1)` from `pan_right`
(src/main.py line 144). -/
def pan_shift (w : ℕ) (duration t : ℚ) : ℤ :=
  int_trunc ((t / duration) * w * 0.1)

/-- The raster transform of `pan_right` (src/main.py lines 141-147):
`np.roll(frame, -shift, axis=1)` cyclically moves every row left by
`shift` columns, i.e. rotates each row; applied only when `shift > 0`. -/
def pan_right {α : Type} (duration t : ℚ) (frame : List (List α)) :
    List (List α) :=
  let shift := pan_shift (frame_width frame) duration t
  if 0 < shift then frame.map (fun row => row.rotate shift.toNat) else frame

/-! ### Narration synthesis (src/main.py lines 156-180) -/

/-- Outcome of driving the external pyttsx3 engine: the `import pyttsx3`
line may raise `ImportError`, and any engine call may raise a runtime
exception; otherwise synthesis completes. -/
inductive TTSOutcome : Type where
  | ok : TTSOutcome
  | importError : TTSOutcome
  | engineError : String → TTSOutcome
deriving DecidableEq

/-- `text_to_speech` (src/main.py lines 156-180).  The whole body is wrapped
in `try/except ImportError/except Exception`, so every outcome of the opaque
engine (a parameter of the embedding, as a function of the text and output
path) is mapped to a boolean: `True` on success, `False` on either exception,
and no exception escapes — the embedding is a total function into `Bool`. -/
def text_to_speech (engine : String → String → TTSOutcome)
    (text output_path : String) : Bool :=
  match engine text output_path with
  | TTSOutcome.ok => true
  | TTSOutcome.importError => false
  | TTSOutcome.engineError _ => false

/-! ### Per-index list fallbacks in generate_video -/

/-- `overlay = text_overlays[i] if text_overlays and i < len(text_overlays)
else None` (src/main.py line 236).  Python truthiness makes `None` and the
empty list both fall to `None`. -/
def overlay_at (text_overlays : Option (List String)) (i : ℕ) : Option String :=
  match text_overlays with
  | none => none
  | some l => if h : l ≠ [] ∧ i < l.length then some (l.get ⟨i, h.2⟩) else none

/-- `effect = visual_effects[i] if i < len(visual_effects) else "none"`
(src/main.py line 237). -/
def visual_effect_at (visual_effects : List String) (i : ℕ) : String :=
  if h : i < visual_effects.length then visual_effects.get ⟨i, h⟩ else "none"

/-- `cam_effect = camera_effects[i] if i < len(camera_effects) else "zoom"`
(src/main.py line 246). -/
def camera_effect_at (camera_effects : List String) (i : ℕ) : String :=
  if h : i < camera_effects.length then camera_effects.get ⟨i, h⟩ else "zoom"

/-! ### Scene construction in generate_video (src/main.py lines 218-261) -/

/-- Scratch path `temp/scene_{i}.png` (src/main.py line 72). -/
def scene_image_path (i : ℕ) : String :=
  "scene_" ++ toString i ++ ".png"

/-- Scratch path `temp/voice_{i}.mp3` (src/main.py line 223). -/
def voice_file_path (i : ℕ) : String :=
  "voice_" ++ toString i ++ ".mp3"

/-- One entry of the voice-over loop (src/main.py lines 221-230): for text
`t` at index `i`, a truthy (non-empty) text is synthesised — appending the
scratch path on success and `None` on failure — and a falsy text appends
`None`.  `tts_ok i t` is the boolean outcome of `text_to_speech` for that
call. -/
def voice_entry (tts_ok : ℕ → String → Bool) (i : ℕ) (t : String) :
    Option String :=
  if t ≠ "" then
    (if tts_ok i t then some (voice_file_path i) else none)
  else none

/-- The `voice_files` list built by the loop at src/main.py lines 218-230:
exactly one entry is appended per element of `voice_over_texts`. -/
def build_voice_files (tts_ok : ℕ → String → Bool)
    (voice_over_texts : List String) : List (Option String) :=
  voice_over_texts.mapIdx (fun i t => voice_entry tts_ok i t)

/-- The image-generation record for one scene (src/main.py lines 235-240):
prompt, index, per-index overlay and visual effect, and the scratch path
returned by `generate_image_from_prompt`. -/
structure SceneImage where
  prompt : String
  index : ℕ
  text_overlay : Option String
  visual_effect : String
  path : String
deriving DecidableEq

/-- The image loop of `generate_video` (src/main.py lines 234-240): one
image per prompt, in order. -/
def build_scene_images (prompts : List String)
    (text_overlays : Option (List String)) (visual_effects : List String) :
    List SceneImage :=
  prompts.mapIdx (fun i p =>
    { prompt := p
      index := i
      text_overlay := overlay_at text_overlays i
      visual_effect := visual_effect_at visual_effects i
      path := scene_image_path i })

/-- The audio attached to clip `i` (src/main.py lines 250-255):
`if voice_files and i < len(voice_files) and voice_files[i]:` then try to
load that file (`AudioFileClip` may raise — modelled by `load_ok`) and set
it as the clip audio; on failure or falsy entry the clip keeps no audio. -/
def clip_audio (voice_files : List (Option String)) (load_ok : String → Bool)
    (i : ℕ) : Option String :=
  if h : voice_files ≠ [] ∧ i < voice_files.length then
    match voice_files.get ⟨i, h.2⟩ with
    | some p => if load_ok p then some p else none
    | none => none
  else none

/-- One assembled scene clip (src/main.py lines 245-257). -/
structure SceneClip where
  image : String
  duration : ℚ
  cam_effect : String
  audio : Option String
deriving DecidableEq

/-- The clip loop of `generate_video` (src/main.py lines 244-257): one clip
per image path, with the per-index camera effect and the narration audio for
the same index. -/
def build_clips (scene_duration : ℚ) (camera_effects : List String)
    (voice_files : List (Option String)) (load_ok : String → Bool)
    (image_paths : List String) : List SceneClip :=
  image_paths.mapIdx (fun i img =>
    { image := img
      duration := scene_duration
      cam_effect := camera_effect_at camera_effects i
      audio := clip_audio voice_files load_ok i })

/-- `concatenate_videoclips(clips, method="compose")` (src/main.py
line 261): the timeline is the ordered list of scene clips; compose mode
tolerates clips with and without audio, so the list is kept as-is. -/
def concatenate_videoclips (clips : List SceneClip) : List SceneClip :=
  clips

/-! ### Background music (src/main.py lines 264-287)

The moviepy audio operations are opaque external collaborators; the
definitions below model only their documented effect on clip duration and
volume, which is what the spec's music properties are about. -/

/-- An audio clip as moviepy exposes it to this code: a duration and a
volume scale. -/
structure AudioClip where
  duration : ℚ
  volume : ℚ
deriving DecidableEq

/-- Modelled from moviepy's documented semantics: `audio_loop(duration=d)`
repeats the clip to total duration `d`. -/
def audio_loop (m : AudioClip) (d : ℚ) : AudioClip :=
  { m with duration := d }

/-- Modelled from moviepy's documented semantics: `subclip(t0, t1)` keeps
the span from `t0` to `t1`. -/
def subclip (m : AudioClip) (t0 t1 : ℚ) : AudioClip :=
  { m with duration := t1 - t0 }

/-- Modelled from moviepy's documented semantics: `volumex(factor)` scales
the volume by `factor`. -/
def volumex (m : AudioClip) (factor : ℚ) : AudioClip :=
  { m with volume := m.volume * factor }

/-- The music-fitting step of `generate_video` (src/main.py lines 269-276):
loop when shorter than the timeline, otherwise trim to it, then scale the
volume by `music_volume`. -/
def fit_music (music : AudioClip) (final_duration music_volume : ℚ) :
    AudioClip :=
  let m :=
    if music.duration < final_duration then audio_loop music final_duration
    else subclip music 0 final_duration
  volumex m music_volume

/-- The background-music attachment step of `generate_video`
(src/main.py lines 264-287), generic in the clip representation `α`.
`attach` models the whole `try` body (lines 267-283): loading the file,
fitting and volume-scaling the music, and mixing it into the clip — every
one an external library call that may raise.  Python reassigns `final_clip`
only as the final step of each branch of the body, so an exception anywhere
in the body leaves `final_clip` exactly as it was; the `except` clause then
proceeds with that value.  A missing path or a non-existent file skips the
whole block. -/
def add_background_music {α : Type} (background_music : Option String)
    (file_exists : String → Bool) (attach : α → Except String α)
    (final_clip : α) : α :=
  match background_music with
  | none => final_clip
  | some path =>
      if file_exists path then
        match attach final_clip with
        | Except.ok c => c
        | Except.error _ => final_clip
      else final_clip

/-! ### Helper lemmas -/

theorem one_le_zoom_factor {duration t : ℚ} (hd : 0 < duration)
    (ht0 : 0 ≤ t) : 1 ≤ zoom_factor duration t := by
  have h1 : 0 ≤ t / duration := div_nonneg ht0 hd.le
  have h2 : 0 ≤ (t / duration) * 0.2 := mul_nonneg h1 (by norm_num)
  unfold zoom_factor
  linarith

theorem crop_dim_bounds (n : ℕ) (f : ℚ) (hf : 1 ≤ f) :
    0 ≤ int_trunc ((n : ℚ) / f) ∧ int_trunc ((n : ℚ) / f) ≤ (n : ℤ) ∧
    0 ≤ Int.fdiv ((n : ℤ) - int_trunc ((n : ℚ) / f)) 2 ∧
    Int.fdiv ((n : ℤ) - int_trunc ((n : ℚ) / f)) 2
      + int_trunc ((n : ℚ) / f) ≤ (n : ℤ) := by
  have hf0 : 0 < f := lt_of_lt_of_le one_pos hf
  have hq0 : 0 ≤ (n : ℚ) / f := div_nonneg (Nat.cast_nonneg n) hf0.le
  have h1 : 0 ≤ int_trunc ((n : ℚ) / f) := int_trunc_nonneg hq0
  have h2 : int_trunc ((n : ℚ) / f) ≤ (n : ℤ) := by
    have hle : (n : ℚ) / f ≤ (n : ℚ) := div_le_self (Nat.cast_nonneg n) hf
    have h3 : (int_trunc ((n : ℚ) / f) : ℚ) ≤ (n : ℚ) :=
      (int_trunc_le hq0).trans hle
    exact_mod_cast h3
  have hdnn : 0 ≤ (n : ℤ) - int_trunc ((n : ℚ) / f) := by omega
  have hfd : Int.fdiv ((n : ℤ) - int_trunc ((n : ℚ) / f)) 2
      = ((n : ℤ) - int_trunc ((n : ℚ) / f)) / 2 :=
    Int.fdiv_eq_ediv _ (by norm_num)
  have h4 : 0 ≤ Int.fdiv ((n : ℤ) - int_trunc ((n : ℚ) / f)) 2 := by
    rw [hfd]
    exact Int.ediv_nonneg hdnn (by norm_num)
  have h5 : Int.fdiv ((n : ℤ) - int_trunc ((n : ℚ) / f)) 2
      ≤ (n : ℤ) - int_trunc ((n : ℚ) / f) := by
    rw [hfd]
    exact Int.ediv_le_self 2 hdnn
  exact ⟨h1, h2, h4, by omega⟩

/-- Claim C1: in the zoom camera effect of `create_scene`, for every
`duration > 0` and every sample time `t ∈ [0, duration]`, the effective zoom
factor is `1 + (t/duration)*0.2` — `1.0` at `t = 0` (no crop: the window is
the whole frame) and `1.2` at `t = duration` — and the centre-anchored crop
window always lies entirely within the original frame bounds:
`0 ≤ top`, `top + new_h ≤ h`, `0 ≤ left`, `left + new_w ≤ w`. -/
theorem zoom_crop_within_bounds (h w : ℕ) (duration t : ℚ)
    (hd : 0 < duration) (ht0 : 0 ≤ t) (ht1 : t ≤ duration) :
    zoom_factor duration t = 1 + (t / duration) * 0.2 ∧
    zoom_factor duration 0 = 1 ∧
    zoom_factor duration duration = 1.2 ∧
    (zoom_crop h w duration 0).top = 0 ∧
    (zoom_crop h w duration 0).left = 0 ∧
    (zoom_crop h w duration 0).new_h = (h : ℤ) ∧
    (zoom_crop h w duration 0).new_w = (w : ℤ) ∧
    0 ≤ (zoom_crop h w duration t).top ∧
    (zoom_crop h w duration t).top + (zoom_crop h w duration t).new_h
      ≤ (h : ℤ) ∧
    0 ≤ (zoom_crop h w duration t).left ∧
    (zoom_crop h w duration t).left + (zoom_crop h w duration t).new_w
      ≤ (w : ℤ) := by
  have hzf0 : zoom_factor duration 0 = 1 := by
    simp [zoom_factor]
  have htrunc : ∀ n : ℕ, int_trunc ((n : ℚ) / zoom_factor duration 0)
      = (n : ℤ) := by
    intro n
    rw [hzf0, div_one, int_trunc_of_nonneg (Nat.cast_nonneg n),
      Int.floor_natCast]
  have hf : 1 ≤ zoom_factor duration t := one_le_zoom_factor hd ht0
  have hbh := crop_dim_bounds h (zoom_factor duration t) hf
  have hbw := crop_dim_bounds w (zoom_factor duration t) hf
  refine ⟨rfl, hzf0, ?_, ?_, ?_, ?_, ?_, ?_, ?_, ?_, ?_⟩
  · unfold zoom_factor
    rw [div_self (ne_of_gt hd)]
    norm_num
  · simp only [zoom_crop, htrunc, sub_self]
    decide
  · simp only [zoom_crop, htrunc, sub_self]
    decide
  · simp only [zoom_crop, htrunc]
  · simp only [zoom_crop, htrunc]
  · simpa only [zoom_crop] using hbh.2.2.1
  · simpa only [zoom_crop] using hbh.2.2.2
  · simpa only [zoom_crop] using hbw.2.2.1
  · simpa only [zoom_crop] using hbw.2.2.2

/-- Witness for C1: the bounds evaluated at a concrete 1920×1080 frame,
`duration = 7`, `t = 3`. -/
theorem zoom_crop_within_bounds_witness :
    0 ≤ (zoom_crop 1080 1920 7 3).top ∧
    (zoom_crop 1080 1920 7 3).top + (zoom_crop 1080 1920 7 3).new_h
      ≤ (1080 : ℤ) ∧
    0 ≤ (zoom_crop 1080 1920 7 3).left ∧
    (zoom_crop 1080 1920 7 3).left + (zoom_crop 1080 1920 7 3).new_w
      ≤ (1920 : ℤ) := by
  have h := zoom_crop_within_bounds 1080 1920 7 3 (by norm_num) (by norm_num)
    (by norm_num)
  exact ⟨h.2.2.2.2.2.2.2.1, h.2.2.2.2.2.2.2.2.1, h.2.2.2.2.2.2.2.2.2.1,
    h.2.2.2.2.2.2.2.2.2.2⟩

/-- Claim C2: the base RGB colour of `generate_image_from_prompt` is a
deterministic function of the prompt hash — identical prompt text (hence an
identical hash value within a process) yields the identical triple — each
channel comes from a different multiple (1x, 2x, 3x) of the hash reduced
modulo 200 plus 50, and each channel lies in `[50, 249]`. -/
theorem base_color_deterministic_in_range :
    (∀ a b : ℤ, a = b → base_color a = base_color b) ∧
    ∀ a : ℤ,
      base_color a = (a % 200 + 50, a * 2 % 200 + 50, a * 3 % 200 + 50) ∧
      (50 ≤ (base_color a).1 ∧ (base_color a).1 ≤ 249) ∧
      (50 ≤ (base_color a).2.1 ∧ (base_color a).2.1 ≤ 249) ∧
      (50 ≤ (base_color a).2.2 ∧ (base_color a).2.2 ≤ 249) := by
  constructor
  · intro a b hab
    rw [hab]
  · intro a
    have h1 := Int.emod_nonneg a (show (200 : ℤ) ≠ 0 by norm_num)
    have h2 := Int.emod_lt_of_pos a (show (0 : ℤ) < 200 by norm_num)
    have h3 := Int.emod_nonneg (a * 2) (show (200 : ℤ) ≠ 0 by norm_num)
    have h4 := Int.emod_lt_of_pos (a * 2) (show (0 : ℤ) < 200 by norm_num)
    have h5 := Int.emod_nonneg (a * 3) (show (200 : ℤ) ≠ 0 by norm_num)
    have h6 := Int.emod_lt_of_pos (a * 3) (show (0 : ℤ) < 200 by norm_num)
    refine ⟨rfl, ?_, ?_, ?_⟩ <;> constructor <;>
      simp only [base_color] <;> omega

/-- Witness for C2 at a concrete hash value. -/
theorem base_color_deterministic_in_range_witness :
    base_color 123456789 = base_color 123456789 ∧
    50 ≤ (base_color 123456789).1 :=
  ⟨base_color_deterministic_in_range.1 123456789 123456789 rfl,
   ((base_color_deterministic_in_range.2 123456789).2.1).1⟩

/-- Claim C3: for every visual-effect tag outside
`{"none", "blur", "gradient", "vignette"}`, the effect-application step of
`generate_image_from_prompt` leaves the base-colour frame unchanged and
behaves identically to passing `"none"` — the dispatch is a total function,
so no exception can arise from an unknown tag. -/
theorem apply_visual_effect_unknown_noop {α : Type}
    (blur gradient vignette : α → α) (e : String) (img : α)
    (h1 : e ≠ "none") (h2 : e ≠ "blur") (h3 : e ≠ "gradient")
    (h4 : e ≠ "vignette") :
    apply_visual_effect blur gradient vignette e img = img ∧
    apply_visual_effect blur gradient vignette e img
      = apply_visual_effect blur gradient vignette "none" img := by
  unfold apply_visual_effect
  rw [if_neg h2, if_neg h3, if_neg h4]
  refine ⟨rfl, ?_⟩
  rw [if_neg (by decide : ¬("none" : String) = "blur"),
    if_neg (by decide : ¬("none" : String) = "gradient"),
    if_neg (by decide : ¬("none" : String) = "vignette")]

/-- Witness for C3 with the unknown tag `"sparkle"` and non-trivial
effect functions on `ℕ` frames. -/
theorem apply_visual_effect_unknown_noop_witness :
    apply_visual_effect (fun n => n + 1) (fun n => n + 2) (fun n => n + 3)
      "sparkle" 0 = 0 ∧
    apply_visual_effect (fun n => n + 1) (fun n => n + 2) (fun n => n + 3)
      "sparkle" 0
      = apply_visual_effect (fun n => n + 1) (fun n => n + 2)
          (fun n => n + 3) "none" 0 :=
  apply_visual_effect_unknown_noop (fun n => n + 1) (fun n => n + 2)
    (fun n => n + 3) "sparkle" 0 (by decide) (by decide) (by decide)
    (by decide)

theorem map_rotate_forall₂ {α : Type} (n : ℕ) (l : List (List α)) :
    List.Forall₂ (fun r₁ r₂ => List.Perm r₁ r₂) (l.map (fun r => r.rotate n)) l := by
  induction l with
  | nil => exact List.Forall₂.nil
  | cons head tail ih => exact List.Forall₂.cons (List.rotate_perm head n) ih

/-- Claim C4: in the pan camera effect of `create_scene`, for every
`duration > 0` and sample time `t ∈ [0, duration]`, the horizontal shift
`int((t/duration)*w*0.1)` is `0` at `t = 0` (frame returned unchanged),
grows monotonically with `t`, never exceeds 10% of the frame width, and the
transform cyclically wraps the raster columns — each output row is a
permutation (a rotation) of the corresponding input row, so no pixel data is
lost and no edge is blank. -/
theorem pan_right_wraps_within_bound {α : Type} (duration t : ℚ)
    (frame : List (List α)) (hd : 0 < duration) (ht0 : 0 ≤ t)
    (ht1 : t ≤ duration) :
    pan_shift (frame_width frame) duration 0 = 0 ∧
    pan_right duration 0 frame = frame ∧
    0 ≤ pan_shift (frame_width frame) duration t ∧
    ((pan_shift (frame_width frame) duration t : ℚ)
      ≤ (frame_width frame : ℚ) * 0.1) ∧
    (∀ s, 0 ≤ s → s ≤ t →
      pan_shift (frame_width frame) duration s
        ≤ pan_shift (frame_width frame) duration t) ∧
    List.Forall₂ (fun r₁ r₂ => List.Perm r₁ r₂) (pan_right duration t frame) frame := by
  have hzero : ∀ w : ℕ, pan_shift w duration 0 = 0 := by
    intro w
    simp [pan_shift, int_trunc]
  have hq0 : 0 ≤ (t / duration) * (frame_width frame : ℚ) * 0.1 :=
    mul_nonneg (mul_nonneg (div_nonneg ht0 hd.le)
      (Nat.cast_nonneg _)) (by norm_num)
  refine ⟨hzero _, ?_, int_trunc_nonneg hq0, ?_, ?_, ?_⟩
  · simp [pan_right, hzero]
  · have hdiv1 : t / duration ≤ 1 := (div_le_one hd).mpr ht1
    have hstep : (t / duration) * (frame_width frame : ℚ) * 0.2 / 2
        ≤ (frame_width frame : ℚ) * 0.1 := by
      nlinarith [Nat.cast_nonneg (α := ℚ) (frame_width frame)]
    have hle : (t / duration) * (frame_width frame : ℚ) * 0.1
        ≤ (frame_width frame : ℚ) * 0.1 := by
      nlinarith [Nat.cast_nonneg (α := ℚ) (frame_width frame)]
    exact (int_trunc_le hq0).trans hle
  · intro s hs0 hst
    have hq0s : 0 ≤ (s / duration) * (frame_width frame : ℚ) * 0.1 :=
      mul_nonneg (mul_nonneg (div_nonneg hs0 hd.le)
        (Nat.cast_nonneg _)) (by norm_num)
    apply int_trunc_mono hq0s
    gcongr
  · by_cases hs : 0 < pan_shift (frame_width frame) duration t
    · simp only [pan_right, if_pos hs]
      exact map_rotate_forall₂ _ frame
    · simp only [pan_right, if_neg hs]
      exact List.forall₂_same.mpr (fun x _ => List.Perm.refl x)

/-- Witness for C4 on a concrete 1-row, 10-column frame with
`duration = 7`, `t = 3`. -/
theorem pan_right_wraps_within_bound_witness :
    pan_right 7 0 [[0, 1, 2, 3, 4, 5, 6, 7, 8, 9]]
      = [[0, 1, 2, 3, 4, 5, 6, 7, 8, 9]] ∧
    0 ≤ pan_shift (frame_width [[0, 1, 2, 3, 4, 5, 6, 7, 8, 9]]) 7 3 := by
  have h := pan_right_wraps_within_bound 7 3
    [[0, 1, 2, 3, 4, 5, 6, 7, 8, 9]] (by norm_num) (by norm_num)
    (by norm_num)
  exact ⟨h.2.1, h.2.2.1⟩

/-- Claim C5: when background music is attached in `generate_video`, music
shorter than the timeline is looped to cover exactly the timeline duration
and music of equal or greater length is trimmed to exactly the timeline
duration, after which its volume is scaled by `music_volume`; the fitted
track's duration always equals the timeline duration. -/
theorem fit_music_duration_eq_timeline (music : AudioClip)
    (final_duration music_volume : ℚ) :
    (music.duration < final_duration →
      fit_music music final_duration music_volume
        = volumex (audio_loop music final_duration) music_volume) ∧
    (final_duration ≤ music.duration →
      fit_music music final_duration music_volume
        = volumex (subclip music 0 final_duration) music_volume) ∧
    (fit_music music final_duration music_volume).duration = final_duration ∧
    (fit_music music final_duration music_volume).volume
      = music.volume * music_volume := by
  refine ⟨?_, ?_, ?_, ?_⟩
  · intro hlt
    simp [fit_music, hlt]
  · intro hge
    simp [fit_music, not_lt.mpr hge]
  · by_cases hlt : music.duration < final_duration
    · simp [fit_music, audio_loop, subclip, volumex, hlt]
    · simp [fit_music, audio_loop, subclip, volumex, hlt]
  · by_cases hlt : music.duration < final_duration
    · simp [fit_music, audio_loop, subclip, volumex, hlt]
    · simp [fit_music, audio_loop, subclip, volumex, hlt]

/-- Witness for C5: a 3-second track looped against a 10-second timeline and
fitted to exactly 10 seconds at 30% volume. -/
theorem fit_music_duration_eq_timeline_witness :
    fit_music ⟨3, 1⟩ 10 (3 / 10)
      = volumex (audio_loop ⟨3, 1⟩ 10) (3 / 10) ∧
    (fit_music ⟨3, 1⟩ 10 (3 / 10)).duration = 10 :=
  ⟨(fit_music_duration_eq_timeline ⟨3, 1⟩ 10 (3 / 10)).1 (by norm_num),
   (fit_music_duration_eq_timeline ⟨3, 1⟩ 10 (3 / 10)).2.2.1⟩

/-- Claim C7: `text_to_speech` never propagates an exception — the
embedding is a total function into `Bool` for every engine outcome, input
text and output path; it returns `true` exactly when synthesis succeeds
and `false` on a missing engine (`ImportError`) or any runtime failure. -/
theorem text_to_speech_never_propagates
    (engine : String → String → TTSOutcome) (text output_path : String) :
    text_to_speech engine text output_path = true ↔
      engine text output_path = TTSOutcome.ok := by
  unfold text_to_speech
  cases h : engine text output_path <;> simp

/-- Witness for C7: an engine whose import fails yields `false`, not an
exception. -/
theorem text_to_speech_never_propagates_witness :
    text_to_speech (fun _ _ => TTSOutcome.importError) "hello" "out.mp3"
      ≠ true :=
  fun hb =>
    TTSOutcome.noConfusion
      ((text_to_speech_never_propagates (fun _ _ => TTSOutcome.importError)
        "hello" "out.mp3").mp hb)

/-- Claim C6: when a supplied parallel list is shorter than the prompts
list, `generate_video` raises no exception — the per-index selectors are
total functions — and every index at or beyond the shorter list's length
falls back to the per-index default (overlay `None`, visual effect
`"none"`, camera effect `"zoom"`), while indices in range use the supplied
value. -/
theorem parallel_list_fallback
    (text_overlays visual_effects camera_effects : List String) (i : ℕ) :
    (text_overlays.length ≤ i → overlay_at (some text_overlays) i = none) ∧
    (∀ h : i < text_overlays.length,
      overlay_at (some text_overlays) i = some (text_overlays.get ⟨i, h⟩)) ∧
    (visual_effects.length ≤ i → visual_effect_at visual_effects i = "none") ∧
    (∀ h : i < visual_effects.length,
      visual_effect_at visual_effects i = visual_effects.get ⟨i, h⟩) ∧
    (camera_effects.length ≤ i → camera_effect_at camera_effects i = "zoom") ∧
    (∀ h : i < camera_effects.length,
      camera_effect_at camera_effects i = camera_effects.get ⟨i, h⟩) := by
  refine ⟨?_, ?_, ?_, ?_, ?_, ?_⟩
  · intro hle
    simp only [overlay_at]
    rw [dif_neg]
    intro hc
    exact absurd hc.2 (Nat.not_lt.mpr hle)
  · intro h
    have hne : text_overlays ≠ [] := by
      intro hnil
      rw [hnil] at h
      exact absurd h (by simp)
    simp only [overlay_at]
    rw [dif_pos ⟨hne, h⟩]
  · intro hle
    simp only [visual_effect_at]
    rw [dif_neg (Nat.not_lt.mpr hle)]
  · intro h
    simp only [visual_effect_at]
    rw [dif_pos h]
  · intro hle
    simp only [camera_effect_at]
    rw [dif_neg (Nat.not_lt.mpr hle)]
  · intro h
    simp only [camera_effect_at]
    rw [dif_pos h]

/-- Witness for C6: one-element lists indexed at 5 fall back to the
defaults; index 0 uses the supplied values. -/
theorem parallel_list_fallback_witness :
    overlay_at (some ["a"]) 5 = none ∧
    visual_effect_at ["gradient"] 5 = "none" ∧
    camera_effect_at ["pan"] 5 = "zoom" ∧
    visual_effect_at ["gradient"] 0 = "gradient" := by
  have h5 := parallel_list_fallback ["a"] ["gradient"] ["pan"] 5
  have h0 := parallel_list_fallback ["a"] ["gradient"] ["pan"] 0
  exact ⟨h5.1 (by decide), h5.2.2.1 (by decide), h5.2.2.2.2.1 (by decide),
    h0.2.2.2.1 (by decide)⟩

/-- Claim C8: `generate_video` builds exactly one scene image and one scene
clip per prompt and concatenates them in prompt order, so the assembled
timeline has as many scenes as there are input prompts — for every list of
voice files and every narration-load outcome. -/
theorem scene_count_eq_prompt_count (prompts : List String)
    (text_overlays : Option (List String))
    (visual_effects camera_effects : List String)
    (voice_files : List (Option String)) (load_ok : String → Bool)
    (scene_duration : ℚ) :
    (build_scene_images prompts text_overlays visual_effects).length
      = prompts.length ∧
    (concatenate_videoclips
      (build_clips scene_duration camera_effects voice_files load_ok
        ((build_scene_images prompts text_overlays visual_effects).map
          SceneImage.path))).length = prompts.length ∧
    (∀ i p, prompts[i]? = some p →
      (build_scene_images prompts text_overlays visual_effects)[i]?
        = some (SceneImage.mk p i (overlay_at text_overlays i)
            (visual_effect_at visual_effects i) (scene_image_path i))) ∧
    (∀ i img,
      ((build_scene_images prompts text_overlays visual_effects).map
        SceneImage.path)[i]? = some img →
      (concatenate_videoclips
        (build_clips scene_duration camera_effects voice_files load_ok
          ((build_scene_images prompts text_overlays visual_effects).map
            SceneImage.path)))[i]?
        = some (SceneClip.mk img scene_duration
            (camera_effect_at camera_effects i)
            (clip_audio voice_files load_ok i))) := by
  refine ⟨?_, ?_, ?_, ?_⟩
  · simp [build_scene_images]
  · simp [build_scene_images, build_clips, concatenate_videoclips]
  · intro i p hp
    simp [build_scene_images, hp]
  · intro i img himg
    simp [build_clips, concatenate_videoclips, himg]

/-- Witness for C8 at two concrete prompts with no overlays, effects or
narration. -/
theorem scene_count_eq_prompt_count_witness :
    (build_scene_images ["A", "B"] none []).length = 2 ∧
    (concatenate_videoclips (build_clips 5 [] [] (fun _ => true)
      ((build_scene_images ["A", "B"] none []).map SceneImage.path))).length
      = 2 := by
  have h := scene_count_eq_prompt_count ["A", "B"] none [] [] []
    (fun _ => true) 5
  exact ⟨h.1, h.2.1⟩

/-- Claim C9: background-music attachment in `generate_video` is atomic —
when no path is given or the file does not exist the step is silently
skipped, and when the `try` body fails at any point the exception is caught
and the final clip (the timeline's audio state) is exactly what it was
before the attempt; only a fully successful body replaces the clip. -/
theorem add_background_music_atomic {α : Type}
    (background_music : Option String) (file_exists : String → Bool)
    (attach : α → Except String α) (final_clip : α) :
    (background_music = none →
      add_background_music background_music file_exists attach final_clip
        = final_clip) ∧
    (∀ path, background_music = some path → file_exists path = false →
      add_background_music background_music file_exists attach final_clip
        = final_clip) ∧
    (∀ path e, background_music = some path → file_exists path = true →
      attach final_clip = Except.error e →
      add_background_music background_music file_exists attach final_clip
        = final_clip) ∧
    (∀ path c, background_music = some path → file_exists path = true →
      attach final_clip = Except.ok c →
      add_background_music background_music file_exists attach final_clip
        = c) := by
  refine ⟨?_, ?_, ?_, ?_⟩
  · intro hnone
    rw [hnone]
    rfl
  · intro path hsome hex
    rw [hsome]
    simp [add_background_music, hex]
  · intro path e hsome hex herr
    rw [hsome]
    simp [add_background_music, hex, herr]
  · intro path c hsome hex hok
    rw [hsome]
    simp [add_background_music, hex, hok]

/-- Witness for C9: an attachment body that fails (a decode error) leaves
the concrete final clip `5` unchanged. -/
theorem add_background_music_atomic_witness :
    add_background_music (some "music.mp3") (fun _ => true)
      (fun _ => Except.error "decode failure") (5 : ℕ) = 5 :=
  (add_background_music_atomic (some "music.mp3") (fun _ => true)
    (fun _ => Except.error "decode failure") 5).2.2.1 "music.mp3"
    "decode failure" rfl rfl rfl

/-- Claim C10: the narration file list stays index-aligned with
`voice_over_texts` — one entry per text, the entry at `i` computed from
`voice_over_texts[i]` alone (a path exactly when the text is non-empty and
synthesis succeeds, `None` otherwise) — and the audio attached to clip `i`
depends only on `voice_files[i]` (given equal lengths), so a failure at one
scene never shifts narration onto another clip. -/
theorem voice_files_index_aligned (tts_ok : ℕ → String → Bool)
    (voice_over_texts : List String) :
    (build_voice_files tts_ok voice_over_texts).length
      = voice_over_texts.length ∧
    (∀ i t, voice_over_texts[i]? = some t →
      (build_voice_files tts_ok voice_over_texts)[i]?
        = some (voice_entry tts_ok i t)) ∧
    (∀ (vf₁ vf₂ : List (Option String)) (load_ok : String → Bool) (i : ℕ),
      vf₁.length = vf₂.length → vf₁[i]? = vf₂[i]? →
      clip_audio vf₁ load_ok i = clip_audio vf₂ load_ok i) := by
  refine ⟨by simp [build_voice_files], ?_, ?_⟩
  · intro i t ht
    simp [build_voice_files, ht]
  · intro vf₁ vf₂ load_ok i hlen hget
    unfold clip_audio
    by_cases hc : vf₁ ≠ [] ∧ i < vf₁.length
    · have hne2 : vf₂ ≠ [] := by
        apply List.length_pos.mp
        rw [← hlen]
        exact List.length_pos.mpr hc.1
      have hlt2 : i < vf₂.length := hlen ▸ hc.2
      rw [dif_pos hc, dif_pos ⟨hne2, hlt2⟩]
      have e1 : vf₁[i]? = some (vf₁.get ⟨i, hc.2⟩) := by
        simp [List.getElem?_eq_getElem hc.2]
      have e2 : vf₂[i]? = some (vf₂.get ⟨i, hlt2⟩) := by
        simp [List.getElem?_eq_getElem hlt2]
      rw [e1, e2] at hget
      rw [Option.some.inj hget]
    · have hc2 : ¬(vf₂ ≠ [] ∧ i < vf₂.length) := by
        intro h2
        apply hc
        constructor
        · apply List.length_pos.mp
          rw [hlen]
          exact List.length_pos.mpr h2.1
        · rw [hlen]
          exact h2.2
      rw [dif_neg hc, dif_neg hc2]

/-- Witness for C10: two texts, an always-failing synthesiser — the list
still has one entry per text and entry 0 comes from text 0. -/
theorem voice_files_index_aligned_witness :
    (build_voice_files (fun _ _ => false) ["hello", ""]).length = 2 ∧
    (build_voice_files (fun _ _ => false) ["hello", ""])[0]?
      = some (voice_entry (fun _ _ => false) 0 "hello") := by
  have h := voice_files_index_aligned (fun _ _ => false) ["hello", ""]
  exact ⟨h.1, h.2.1 0 "hello" rfl⟩

end AIVideoGen
